import Mathlib

/-!
Verification of the upload-source abstraction of `airflow_dvc/dvc_upload.py`.

The Python module defines an abstract base class `DVCUpload` with a cached
`_resource` field, context-manager entry/exit (`__enter__`/`__exit__`), and
four concrete variants: `DVCCallbackUpload`, `DVCPathUpload`, `DVCS3Upload`,
`DVCStringUpload`.  We embed the data model shallowly:

* immutable construction-time fields become structure fields (the
  `instance_context` string, computed in Python by stack inspection at
  construction time, is modelled as an opaque string fixed at construction);
* the mutable `_resource` field becomes an explicit `Option ρ` value threaded
  through the lifecycle operations;
* effects (filesystem, S3 store, producer-invocation counting) become an
  explicit world state `σ` threaded through `open`-like functions;
* Python exceptions become `Except` values.
-/

set_option autoImplicit false

namespace AirflowDVC

/-- Model of Python's `io.StringIO(s)`: an in-memory readable buffer whose
full content is the string it was built from. -/
structure StringBuf where
  content : String
deriving DecidableEq, Repr

/-- Model of `read()` on a `StringIO` buffer: yields the full content. -/
def StringBuf.read (b : StringBuf) : String :=
  b.content

/-- Base-class fields of `DVCUpload` (`dvc_path` set from the constructor
argument, `instance_context` the caller-site string computed in `__init__`).
The mutable `_resource` field is modelled separately as an `Option ρ` value
threaded through the lifecycle functions below. -/
structure DVCUpload where
  dvc_path : String
  instance_context : String
deriving DecidableEq, Repr

/-- Errors that `open()` implementations can raise: a filesystem failure for
`DVCPathUpload` (path missing or unreadable), a storage failure for
`DVCS3Upload` (missing key or connection failure). -/
inductive OpenErr where
  | fileNotFound (path : String)
  | s3ReadFailure (conn bucket key : String)
deriving DecidableEq, Repr

/-!  Generic lifecycle: `DVCUpload.__enter__` / `DVCUpload.__exit__`.

These are defined once on the base class, parametric in the concrete
`open`/`close` implementations.  `enterS` embeds

    def __enter__(self):
        if self._resource is None:
            self._resource = self.open()
        return self._resource

as a function of the cached field and a world state; the open function
returns its result (possibly an error) together with the updated world, so
that a raising `open()` still registers its effects (e.g. a call count).
If `open()` raises, the assignment to `self._resource` never runs, so the
cached field stays `none` and the error propagates. -/

/-- Result of `__enter__`: the value returned (or the propagating error),
the cached `_resource` field afterwards, and the world afterwards. -/
def enterS {ρ σ ε : Type} (openFn : σ → Except ε ρ × σ)
    (res : Option ρ) (w : σ) : Except ε ρ × Option ρ × σ :=
  match res with
  | some r => (Except.ok r, some r, w)
  | none =>
    match openFn w with
    | (Except.ok r, w') => (Except.ok r, some r, w')
    | (Except.error e, w') => (Except.error e, none, w')

/-- Result of `__exit__`: the error propagating out of `close()` (if any),
the cached `_resource` field afterwards, and the world afterwards. -/
structure ExitOut (ρ σ ε : Type) where
  err : Option ε
  resource : Option ρ
  world : σ
deriving Repr

/-- Embedding of `DVCUpload.__exit__`:

    def __exit__(self, type, value, traceback):
        if self._resource is not None:
            self.close(self._resource)
        self._resource = None

`excInfo` models the `(type, value, traceback)` triple describing an error
raised by the body of the `with` block; the code ignores it, so `__exit__`
behaves identically whether or not the body raised.  If `close()` itself
raises, that exception propagates before the line `self._resource = None`
executes, so the cached field is left holding the resource. -/
def exitS {ρ σ ε β : Type} (closeFn : ρ → σ → Except ε σ)
    (_excInfo : Option β) (res : Option ρ) (w : σ) : ExitOut ρ σ ε :=
  match res with
  | none => ⟨none, none, w⟩
  | some r =>
    match closeFn r w with
    | Except.ok w' => ⟨none, none, w'⟩
    | Except.error e => ⟨some e, some r, w⟩

/-- Instrumented open: wraps a variant's open result in a world that counts
how many times `open()` has been called (each call, successful or raising,
increments the counter by one). -/
def countOpen {ρ ε : Type} (f : Except ε ρ) : Nat → Except ε ρ × Nat :=
  fun n => (f, n + 1)

/-!  `DVCCallbackUpload`: upload string content generated by a callback. -/

/-- Fields of `DVCCallbackUpload`: the base fields plus the stored
`data_provider` callback (a zero-argument function returning a string). -/
structure DVCCallbackUpload extends DVCUpload where
  data_provider : Unit → String

/-- Embedding of `DVCCallbackUpload.__init__` in a world counting invocations
of the producer callback: the constructor stores `data_provider` without
calling it, so the invocation counter is returned unchanged. -/
def DVCCallbackUpload.mkCounted (dvc_path instance_context : String)
    (data_provider : Unit → String) (calls : Nat) :
    DVCCallbackUpload × Nat :=
  (⟨⟨dvc_path, instance_context⟩, data_provider⟩, calls)

/-- Embedding of `DVCCallbackUpload.describe_source`:
`f"Callback {self.instance_context}"`. -/
def DVCCallbackUpload.describe_source (u : DVCCallbackUpload) : String :=
  "Callback " ++ u.instance_context

/-- Embedding of `DVCCallbackUpload.open`:
`return StringIO(self.data_provider())` — one invocation of the stored
producer per call, counted in the world. -/
def DVCCallbackUpload.openCounted (u : DVCCallbackUpload) (calls : Nat) :
    StringBuf × Nat :=
  (⟨u.data_provider ()⟩, calls + 1)

/-- Embedding of `DVCCallbackUpload.close`: `pass` — returns the instance,
the resource and the world untouched. -/
def DVCCallbackUpload.closeS {σ : Type} (u : DVCCallbackUpload)
    (r : StringBuf) (w : σ) : DVCCallbackUpload × StringBuf × σ :=
  (u, r, w)

/-!  `DVCPathUpload`: upload a local file by path.  The filesystem world
tracks the mapping from paths to contents (`none` = missing or unreadable)
and the set of file handles opened and not yet closed. -/

/-- Filesystem world for `DVCPathUpload`: file contents by path, the next
fresh handle id, and the handles currently open (opened, not yet closed). -/
structure FS where
  files : String → Option String
  nextHandle : Nat
  openHandles : List Nat

/-- Fields of `DVCPathUpload`: the base fields plus `src`, the local path. -/
structure DVCPathUpload extends DVCUpload where
  src : String
deriving DecidableEq, Repr

/-- Embedding of `DVCPathUpload.describe_source`: `f"Path {self.src}"`. -/
def DVCPathUpload.describe_source (u : DVCPathUpload) : String :=
  "Path " ++ u.src

/-- Embedding of `DVCPathUpload.open`: `return open(self.src, 'r')`.
If the path is missing or unreadable the builtin `open` raises before any
content is read: no handle is allocated and the filesystem is unchanged.
Otherwise a fresh handle is allocated and recorded as open. -/
def DVCPathUpload.openFS (u : DVCPathUpload) (fs : FS) :
    Except OpenErr Nat × FS :=
  match fs.files u.src with
  | none => (Except.error (OpenErr.fileNotFound u.src), fs)
  | some _ =>
    (Except.ok fs.nextHandle,
     ⟨fs.files, fs.nextHandle + 1, fs.nextHandle :: fs.openHandles⟩)

/-- Embedding of `DVCPathUpload.close`: `resource.close()` — releases the
file handle (removes it from the open-handle set). -/
def DVCPathUpload.closeFS (h : Nat) (fs : FS) : FS :=
  ⟨fs.files, fs.nextHandle, fs.openHandles.erase h⟩

/-!  `DVCS3Upload`: upload an object fetched from S3. -/

/-- S3 store world: content by `(connection id, bucket name, key)`;
`none` models a missing key or a connection that cannot be established. -/
structure S3Store where
  read_key : String → String → String → Option String

/-- Fields of `DVCS3Upload`: base fields plus `aws_conn_id`, `bucket_name`
and `bucket_path`. -/
structure DVCS3Upload extends DVCUpload where
  aws_conn_id : String
  bucket_name : String
  bucket_path : String
deriving DecidableEq, Repr

/-- Embedding of `DVCS3Upload.describe_source`:
`f"S3 {self.bucket_name}/{self.bucket_path}"`. -/
def DVCS3Upload.describe_source (u : DVCS3Upload) : String :=
  "S3 " ++ u.bucket_name ++ "/" ++ u.bucket_path

/-- Embedding of `DVCS3Upload.open`: build an `S3Hook` from `aws_conn_id`,
`read_key` the addressed object and wrap the result in a `StringIO`;
a missing key or failed connection raises and propagates. -/
def DVCS3Upload.openS3 (u : DVCS3Upload) (store : S3Store) :
    Except OpenErr StringBuf × S3Store :=
  match store.read_key u.aws_conn_id u.bucket_name u.bucket_path with
  | none =>
    (Except.error (OpenErr.s3ReadFailure u.aws_conn_id u.bucket_name u.bucket_path),
     store)
  | some content => (Except.ok ⟨content⟩, store)

/-- Embedding of `DVCS3Upload.close`: `pass` — returns the instance, the
resource and the world untouched. -/
def DVCS3Upload.closeS {σ : Type} (u : DVCS3Upload) (r : StringBuf) (w : σ) :
    DVCS3Upload × StringBuf × σ :=
  (u, r, w)

/-!  `DVCStringUpload`: upload a literal string held in memory. -/

/-- Fields of `DVCStringUpload`: base fields plus the literal `content`. -/
structure DVCStringUpload extends DVCUpload where
  content : String
deriving DecidableEq, Repr

/-- Embedding of `DVCStringUpload.describe_source`:
`f"String {self.instance_context}"`. -/
def DVCStringUpload.describe_source (u : DVCStringUpload) : String :=
  "String " ++ u.instance_context

/-- Embedding of `DVCStringUpload.open`: `return StringIO(self.content)` —
a total function: wrapping an in-memory string cannot fail. -/
def DVCStringUpload.openResource (u : DVCStringUpload) : StringBuf :=
  ⟨u.content⟩

/-- `DVCStringUpload.open` lifted to the world-passing interface used by the
lifecycle wrapper: always succeeds, never touches the world. -/
def DVCStringUpload.openW {σ : Type} (u : DVCStringUpload) (w : σ) :
    Except OpenErr StringBuf × σ :=
  (Except.ok u.openResource, w)

/-- Embedding of `DVCStringUpload.close`: `pass` — returns the instance, the
resource and the world untouched. -/
def DVCStringUpload.closeS {σ : Type} (u : DVCStringUpload) (r : StringBuf)
    (w : σ) : DVCStringUpload × StringBuf × σ :=
  (u, r, w)

/-- `DVCStringUpload.close` lifted to the fallible close interface used by
`exitS`: a `pass` body never raises and never changes the world. -/
def DVCStringUpload.closeW {σ : Type} (_r : StringBuf) (w : σ) :
    Except OpenErr σ :=
  Except.ok w

/-- A close implementation that raises, as `DVCPathUpload.close` may: it
calls `resource.close()` on a file object, and an OS-level `close` can fail
(e.g. `OSError` on a bad descriptor).  Used to examine `__exit__` on the
close-failure path. -/
def failingClose (_r : Nat) (_w : Unit) : Except Nat Unit :=
  Except.error 0

/-- `DVCPathUpload.close` lifted to the fallible close interface used by
`exitS`, on its normal path: `resource.close()` returns after releasing the
handle. -/
def pathCloseW (h : Nat) (fs : FS) : Except OpenErr FS :=
  Except.ok (DVCPathUpload.closeFS h fs)

/-!  Trace semantics for a `DVCPathUpload` used as a context manager: a
sequence of `__enter__` / `__exit__` events acting on the cached `_resource`
field together with the filesystem world. -/

/-- A lifecycle event on one `DVCUpload` instance. -/
inductive Op where
  | enter
  | exitOp
deriving DecidableEq, Repr

/-- One lifecycle event of a `DVCPathUpload` acting on the pair (cached
`_resource` field, filesystem). -/
def pathStep (u : DVCPathUpload) (s : Option Nat × FS) : Op → Option Nat × FS
  | Op.enter =>
    ((enterS u.openFS s.1 s.2).2.1, (enterS u.openFS s.1 s.2).2.2)
  | Op.exitOp =>
    ((exitS pathCloseW (none : Option Unit) s.1 s.2).resource,
     (exitS pathCloseW (none : Option Unit) s.1 s.2).world)

/-- A sequence of lifecycle events of a `DVCPathUpload`. -/
def pathRun (u : DVCPathUpload) (s : Option Nat × FS) (ops : List Op) :
    Option Nat × FS :=
  ops.foldl (pathStep u) s

/-- Resource invariant of one `DVCPathUpload` instance: either no resource
is cached and no handle of this run is open, or exactly the cached handle is
open and it is the most recently allocated one. -/
def PathInv (s : Option Nat × FS) : Prop :=
  match s.1 with
  | none => s.2.openHandles = []
  | some h => s.2.openHandles = [h] ∧ s.2.nextHandle = h + 1

/-- Instrumented describe: `describe_source` as a function acting on the
instance together with the cached `_resource` field, returning the string
and the (untouched) field — the Python bodies are single `return` statements
over immutable construction-time fields. -/
def describeS {α ρ : Type} (describe : α → String) (u : α) (res : Option ρ) :
    String × Option ρ :=
  (describe u, res)

/-!  Concrete sample instances and worlds used by witnesses and
counterexamples. -/

/-- Sample `DVCStringUpload` from the end-to-end example. -/
def uStr : DVCStringUpload :=
  ⟨⟨"data/out.csv", "(dag.py:10)"⟩, "a,b\n1,2\n"⟩

/-- Sample `DVCCallbackUpload` from the end-to-end example. -/
def uCb : DVCCallbackUpload :=
  ⟨⟨"data/out.json", "(dag.py:11)"⟩, fun _ => "\x7b\x7d"⟩

/-- Sample `DVCPathUpload` over the local path `local.txt`. -/
def uPath : DVCPathUpload :=
  ⟨⟨"data/out.bin", "(dag.py:12)"⟩, "local.txt"⟩

/-- Sample `DVCS3Upload`. -/
def uS3 : DVCS3Upload :=
  ⟨⟨"data/out.csv", "(dag.py:13)"⟩, "conn", "mybucket", "data.csv"⟩

/-- Filesystem with no readable files. -/
def fsMissing : FS :=
  ⟨fun _ => none, 0, []⟩

/-- Filesystem where `local.txt` exists and is readable. -/
def fsWith : FS :=
  ⟨fun p => if p = "local.txt" then some "hello" else none, 0, []⟩

/-!  Theorems. -/

/-- C1 (counterexample): the claim says `__exit__` clears the cached
resource reference unconditionally, including when `close()` itself fails.
It does not: with a close implementation that raises (as `DVCPathUpload`'s
file close may), `__exit__` on a held resource `5` — even on the error path
of the body, `excInfo = some ()` — propagates the close error and leaves the
cached field still holding `5`, because the exception escapes before the
line `self._resource = None` runs. -/
theorem exit_keeps_resource_on_close_failure :
    exitS failingClose (some ()) (some 5) () =
      ⟨some 0, some 5, ()⟩ := by
  rfl

/-- C1 (amended): `__exit__` runs identically whether or not the body of the
`with` block raised (`excInfo` is ignored); when a resource is held it calls
`close()` on it, and whenever `close()` returns normally the cached
reference is cleared; with no held resource it does nothing and the cached
field stays cleared.  (When `close()` itself raises, the error propagates
and the cached reference is left in place.) -/
theorem exit_clears_resource_when_close_returns {ρ σ ε β : Type}
    (closeFn : ρ → σ → Except ε σ) (excInfo : Option β) (r : ρ) (w w' : σ)
    (h : closeFn r w = Except.ok w') :
    exitS closeFn excInfo (some r) w = ⟨none, none, w'⟩ ∧
    exitS closeFn excInfo none w = ⟨none, none, w⟩ := by
  constructor
  · simp [exitS, h]
  · rfl

/-- Witness for the amended C1: exiting a `DVCStringUpload` scope with a
held buffer, after the body raised, closes (a no-op) and clears the cached
reference. -/
theorem exit_clears_resource_when_close_returns_witness :
    exitS (DVCStringUpload.closeW (σ := Unit)) (some ())
      (some uStr.openResource) () = ⟨none, none, ()⟩ ∧
    exitS (DVCStringUpload.closeW (σ := Unit)) (some ())
      (none : Option StringBuf) () = ⟨none, none, ()⟩ :=
  exit_clears_resource_when_close_returns DVCStringUpload.closeW (some ())
    uStr.openResource () () rfl

/-- C2: scope entry is idempotent with respect to opening.  With the open
call count made explicit, a first `__enter__` on an instance holding no
resource calls `open()` exactly once (the counter goes from `n` to `n + 1`),
caches and returns its result; a second `__enter__` without an intervening
exit returns the same cached resource object and leaves the call counter
unchanged — `open()` is not called again. -/
theorem enter_idempotent_single_open {ρ ε : Type}
    (f : Except ε ρ) (n : Nat) (r : ρ) (h : f = Except.ok r) :
    enterS (countOpen f) none n = (Except.ok r, some r, n + 1) ∧
    enterS (countOpen f) (some r) (n + 1) = (Except.ok r, some r, n + 1) := by
  subst h
  exact ⟨rfl, rfl⟩

/-- Witness for C2: entering twice on the sample `DVCStringUpload`'s open
result, starting from call count `0`: one `open()` call in total, same
buffer both times. -/
theorem enter_idempotent_single_open_witness :
    enterS (countOpen (Except.ok (ε := OpenErr) uStr.openResource)) none 0 =
      (Except.ok uStr.openResource, some uStr.openResource, 1) ∧
    enterS (countOpen (Except.ok (ε := OpenErr) uStr.openResource))
        (some uStr.openResource) 1 =
      (Except.ok uStr.openResource, some uStr.openResource, 1) :=
  enter_idempotent_single_open (Except.ok uStr.openResource) 0
    uStr.openResource rfl

/-- Step lemma for C3: every single `__enter__` or `__exit__` event on a
`DVCPathUpload` preserves the one-open-resource invariant. -/
theorem pathStep_inv (u : DVCPathUpload) (s : Option Nat × FS) (op : Op)
    (h : PathInv s) : PathInv (pathStep u s op) := by
  obtain ⟨res, fs⟩ := s
  cases op with
  | enter =>
    cases res with
    | some r => simpa [pathStep, enterS] using h
    | none =>
      cases hf : fs.files u.src with
      | none =>
        simpa [pathStep, enterS, DVCPathUpload.openFS, hf, PathInv] using h
      | some c =>
        have hE : fs.openHandles = [] := h
        simp [pathStep, enterS, DVCPathUpload.openFS, hf, PathInv, hE]
  | exitOp =>
    cases res with
    | none => simpa [pathStep, exitS] using h
    | some r =>
      obtain ⟨h1, h2⟩ := h
      show fs.openHandles.erase r = []
      rw [h1]
      simp

/-- C3: at most one resource is open per `DVCPathUpload` instance at any
time.  Along any sequence of `__enter__`/`__exit__` events starting in a
state satisfying the invariant, the cached field is either absent (and no
handle of this instance is open) or holds exactly the handle produced by
the most recent successful `open()` (it is the latest allocated handle, and
the only open one); in particular never more than one handle is open. -/
theorem path_at_most_one_open (u : DVCPathUpload) (ops : List Op)
    (s : Option Nat × FS) (h : PathInv s) :
    PathInv (pathRun u s ops) ∧
    (pathRun u s ops).2.openHandles.length ≤ 1 := by
  have key : ∀ (l : List Op) (t : Option Nat × FS),
      PathInv t → PathInv (pathRun u t l) := by
    intro l
    induction l with
    | nil => intro t ht; exact ht
    | cons op rest ih =>
      intro t ht
      exact ih (pathStep u t op) (pathStep_inv u t op ht)
  refine ⟨key ops s h, ?_⟩
  have hinv := key ops s h
  cases hres : (pathRun u s ops).1 with
  | none =>
    simp only [PathInv, hres] at hinv
    simp [hinv]
  | some r =>
    simp only [PathInv, hres] at hinv
    simp [hinv.1]

/-- Witness for C3: running enter, enter, exit on the sample path upload
over the filesystem holding `local.txt`, from the empty initial state. -/
theorem path_at_most_one_open_witness :
    PathInv (pathRun uPath (none, fsWith) [Op.enter, Op.enter, Op.exitOp]) ∧
    (pathRun uPath (none, fsWith)
      [Op.enter, Op.enter, Op.exitOp]).2.openHandles.length ≤ 1 :=
  path_at_most_one_open uPath [Op.enter, Op.enter, Op.exitOp]
    (none, fsWith) rfl

/-- C4 (counterexample): the claim says `describe()` of the object-store
variant returns the string "ObjectStore" followed by bucket/key.  The code
returns `f"S3 {self.bucket_name}/{self.bucket_path}"`: on the sample
instance the output is `"S3 mybucket/data.csv"`, which does not begin with
"ObjectStore" at all. -/
theorem s3_describe_no_objectstore_label :
    DVCS3Upload.describe_source uS3 = "S3 mybucket/data.csv" ∧
    ¬ "ObjectStore".data <+: (DVCS3Upload.describe_source uS3).data := by
  constructor
  · rfl
  · decide

/-- C4 (amended): for every `DVCS3Upload` constructed with bucket name `B`
and bucket path `K`, `describe_source` returns the string "S3 " followed by
`B/K`. -/
theorem s3_describe_eq (d c conn B K : String) :
    DVCS3Upload.describe_source ⟨⟨d, c⟩, conn, B, K⟩ =
      "S3 " ++ B ++ "/" ++ K :=
  rfl

/-- C5: if the stored local path is missing or unreadable, `DVCPathUpload`'s
`open()` raises a filesystem open error before any content is read: no
handle is allocated, the filesystem is unchanged, and the scoped acquisition
propagates the error with no resource produced or cached. -/
theorem path_open_missing_fails (u : DVCPathUpload) (fs : FS)
    (h : fs.files u.src = none) :
    u.openFS fs = (Except.error (OpenErr.fileNotFound u.src), fs) ∧
    enterS u.openFS none fs =
      (Except.error (OpenErr.fileNotFound u.src), none, fs) := by
  constructor
  · simp [DVCPathUpload.openFS, h]
  · simp [enterS, DVCPathUpload.openFS, h]

/-- Witness for C5: acquiring the sample path upload over a filesystem with
no readable files fails with `fileNotFound` and produces nothing. -/
theorem path_open_missing_fails_witness :
    uPath.openFS fsMissing =
      (Except.error (OpenErr.fileNotFound "local.txt"), fsMissing) ∧
    enterS uPath.openFS none fsMissing =
      (Except.error (OpenErr.fileNotFound "local.txt"), none, fsMissing) :=
  path_open_missing_fails uPath fsMissing rfl

/-- C6: for every `DVCStringUpload` with content `S`: `open()` is a total
function (cannot fail) whose lifted form always succeeds without touching
the world; the acquired buffer reads back exactly `S`; `describe_source`
returns a string beginning with "String"; and exiting the scope with the
buffer held clears the cached resource while `close()` is operationally a
no-op (no error, world unchanged). -/
theorem string_upload_end_to_end {σ : Type} (u : DVCStringUpload) (w : σ) :
    (u.openResource).read = u.content ∧
    u.openW w = (Except.ok u.openResource, w) ∧
    (∃ t, u.describe_source = "String" ++ t) ∧
    exitS DVCStringUpload.closeW (none : Option Unit)
      (some u.openResource) w = ⟨none, none, w⟩ := by
  refine ⟨rfl, rfl, ⟨" " ++ u.instance_context, ?_⟩, rfl⟩
  show "String " ++ u.instance_context = "String" ++ (" " ++ u.instance_context)
  rw [← String.append_assoc]
  rfl

/-- C7: the producer callback of a `DVCCallbackUpload` is never invoked at
construction time (the invocation counter is unchanged by `__init__`); each
`open()` invokes it exactly once (counter `n` goes to `n + 1`); and the
acquired buffer's full content equals the string the producer returns. -/
theorem callback_producer_deferred (path ctx : String)
    (p : Unit → String) (n m : Nat) :
    (DVCCallbackUpload.mkCounted path ctx p n).2 = n ∧
    ((DVCCallbackUpload.mkCounted path ctx p n).1.openCounted m).2 = m + 1 ∧
    ((DVCCallbackUpload.mkCounted path ctx p n).1.openCounted m).1.read =
      p () :=
  ⟨rfl, rfl, rfl⟩

/-- C8: `describe_source` is deterministic and side-effect free for every
variant: as an operation on (instance, cached resource field) it returns a
string depending only on the instance's construction-time fields, leaves
the cached field exactly as it was, and calling it a second time on the
resulting state returns the identical string. -/
theorem describe_deterministic_and_pure {ρ : Type}
    (uc : DVCCallbackUpload) (up : DVCPathUpload) (us : DVCS3Upload)
    (ul : DVCStringUpload) (res : Option ρ) :
    describeS DVCCallbackUpload.describe_source uc res =
      (uc.describe_source, res) ∧
    (describeS DVCCallbackUpload.describe_source uc
      (describeS DVCCallbackUpload.describe_source uc res).2).1 =
      (describeS DVCCallbackUpload.describe_source uc res).1 ∧
    describeS DVCPathUpload.describe_source up res =
      (up.describe_source, res) ∧
    (describeS DVCPathUpload.describe_source up
      (describeS DVCPathUpload.describe_source up res).2).1 =
      (describeS DVCPathUpload.describe_source up res).1 ∧
    describeS DVCS3Upload.describe_source us res =
      (us.describe_source, res) ∧
    (describeS DVCS3Upload.describe_source us
      (describeS DVCS3Upload.describe_source us res).2).1 =
      (describeS DVCS3Upload.describe_source us res).1 ∧
    describeS DVCStringUpload.describe_source ul res =
      (ul.describe_source, res) ∧
    (describeS DVCStringUpload.describe_source ul
      (describeS DVCStringUpload.describe_source ul res).2).1 =
      (describeS DVCStringUpload.describe_source ul res).1 :=
  ⟨rfl, rfl, rfl, rfl, rfl, rfl, rfl, rfl⟩

/-- C9: `close` is a no-op for the callback, object-store and literal
variants — it cannot fail and leaves the instance (including `dvc_path`),
the resource and the world untouched — while `DVCPathUpload.close` releases
the held file handle: the filesystem keeps its files and handle counter but
the closed handle leaves the open set, strictly shrinking it. -/
theorem close_noop_except_path {σ : Type} (uc : DVCCallbackUpload)
    (us : DVCS3Upload) (ul : DVCStringUpload) (r : StringBuf) (w : σ)
    (h : Nat) (fs : FS) (hmem : h ∈ fs.openHandles) :
    uc.closeS r w = (uc, r, w) ∧
    us.closeS r w = (us, r, w) ∧
    ul.closeS r w = (ul, r, w) ∧
    (DVCPathUpload.closeFS h fs).files = fs.files ∧
    (DVCPathUpload.closeFS h fs).nextHandle = fs.nextHandle ∧
    (DVCPathUpload.closeFS h fs).openHandles = fs.openHandles.erase h ∧
    (DVCPathUpload.closeFS h fs).openHandles.length <
      fs.openHandles.length := by
  refine ⟨rfl, rfl, rfl, rfl, rfl, rfl, ?_⟩
  have := List.length_erase_add_one hmem
  simp only [DVCPathUpload.closeFS]
  omega

/-- Witness for C9: closing handle `3` held open in a concrete filesystem. -/
theorem close_noop_except_path_witness :
    uCb.closeS uStr.openResource 0 = (uCb, uStr.openResource, 0) ∧
    uS3.closeS uStr.openResource 0 = (uS3, uStr.openResource, 0) ∧
    uStr.closeS uStr.openResource 0 = (uStr, uStr.openResource, 0) ∧
    (DVCPathUpload.closeFS 3 ⟨fsWith.files, 4, [3]⟩).files = fsWith.files ∧
    (DVCPathUpload.closeFS 3 ⟨fsWith.files, 4, [3]⟩).nextHandle = 4 ∧
    (DVCPathUpload.closeFS 3 ⟨fsWith.files, 4, [3]⟩).openHandles =
      List.erase [3] 3 ∧
    (DVCPathUpload.closeFS 3 ⟨fsWith.files, 4, [3]⟩).openHandles.length <
      List.length [3] :=
  close_noop_except_path uCb uS3 uStr uStr.openResource 0 3
    ⟨fsWith.files, 4, [3]⟩ (by decide)

/-- C10: if `open()` raises during `__enter__`, the error propagates
unchanged and the cached `_resource` field stays `none` — the instance is
left in its pre-acquisition state — and a later acquisition (here in a
world where `open()` succeeds) starts fresh, opening and caching a new
resource. -/
theorem enter_open_failure_leaves_state {ρ σ ε : Type}
    (openFn : σ → Except ε ρ × σ) (w w' : σ) (e : ε)
    (h : openFn w = (Except.error e, w')) :
    enterS openFn none w = (Except.error e, none, w') ∧
    ∀ w₂ r w₃, openFn w₂ = (Except.ok r, w₃) →
      enterS openFn none w₂ = (Except.ok r, some r, w₃) := by
  constructor
  · simp [enterS, h]
  · intro w₂ r w₃ h₂
    simp [enterS, h₂]

/-- Witness for C10: the sample path upload fails to acquire over the empty
filesystem, leaving the cached field `none`; the same instance then
acquires fresh over the filesystem holding `local.txt`. -/
theorem enter_open_failure_leaves_state_witness :
    enterS uPath.openFS none fsMissing =
      (Except.error (OpenErr.fileNotFound "local.txt"), none, fsMissing) ∧
    enterS uPath.openFS none fsWith =
      (Except.ok 0, some 0, FS.mk fsWith.files 1 [0]) :=
  ⟨(enter_open_failure_leaves_state uPath.openFS fsMissing fsMissing
      (OpenErr.fileNotFound "local.txt") rfl).1,
   (enter_open_failure_leaves_state uPath.openFS fsMissing fsMissing
      (OpenErr.fileNotFound "local.txt") rfl).2 fsWith 0
      (FS.mk fsWith.files 1 [0]) rfl⟩

end AirflowDVC
